import Mathlib

/-!
# Verification of the accounting-reports backend

Shallow embedding of the Python backend (`backend/app.py`, `backend/database.py`,
`backend/excel_parser.py`, `backend/excel_reader.py`) of the accounting-reports
repository, together with proofs about the claims of its specification.

Numeric cell values are modelled as exact rationals (`ℚ`): the Python code
computes with IEEE doubles, and all claims under study are about the arithmetic
relationships the code implements, not about floating-point rounding noise.
`round(x, n)` is modelled by exact round-half-to-even on rationals, which is
Python's documented rounding mode.
-/

namespace AccountingReports

/-! ## Strings with an apostrophe

Month tokens such as `Jan'24` contain an apostrophe; we build them from
`Char.ofNat 39` (the apostrophe character) so every token is spelled the same
way the Python source spells it. -/

/-- The apostrophe character, U+0027. -/
def aposChar : Char := Char.ofNat 39

/-- The one-character string containing only an apostrophe. -/
def apos : String := String.singleton aposChar

/-- Render a natural number as (at least) two digits, as in the year part of
`Jan'24`. -/
def twoDigit (n : Nat) : String :=
  if n < 10 then "0" ++ toString n else toString n

/-- Build a month token `<abbrev>'<yy>` such as `Jan'24`, exactly the key
strings of `MONTH_MAP` in `excel_parser.py`. -/
def mkMonthToken (ab : String) (yy : Nat) : String :=
  ab ++ apos ++ twoDigit yy

/-! ## Month parsing (`excel_parser.py`)

`MONTH_MAP` (excel_parser.py lines 22-31) is a literal dictionary holding
exactly the 24 tokens `Mon'24` and `Mon'25`; `parse_month` (lines 97-99) is
`MONTH_MAP.get(month_str, (None, None))`. -/

/-- `MONTH_MAP` of `excel_parser.py`: the 24 tokens of years 2024 and 2025,
each mapped to (full month name, four-digit year). -/
def MONTH_MAP : List (String × String × Nat) :=
  [ (mkMonthToken "Jan" 24, ("January", 2024)), (mkMonthToken "Feb" 24, ("February", 2024)),
    (mkMonthToken "Mar" 24, ("March", 2024)),   (mkMonthToken "Apr" 24, ("April", 2024)),
    (mkMonthToken "May" 24, ("May", 2024)),     (mkMonthToken "Jun" 24, ("June", 2024)),
    (mkMonthToken "Jul" 24, ("July", 2024)),    (mkMonthToken "Aug" 24, ("August", 2024)),
    (mkMonthToken "Sep" 24, ("September", 2024)), (mkMonthToken "Oct" 24, ("October", 2024)),
    (mkMonthToken "Nov" 24, ("November", 2024)), (mkMonthToken "Dec" 24, ("December", 2024)),
    (mkMonthToken "Jan" 25, ("January", 2025)), (mkMonthToken "Feb" 25, ("February", 2025)),
    (mkMonthToken "Mar" 25, ("March", 2025)),   (mkMonthToken "Apr" 25, ("April", 2025)),
    (mkMonthToken "May" 25, ("May", 2025)),     (mkMonthToken "Jun" 25, ("June", 2025)),
    (mkMonthToken "Jul" 25, ("July", 2025)),    (mkMonthToken "Aug" 25, ("August", 2025)),
    (mkMonthToken "Sep" 25, ("September", 2025)), (mkMonthToken "Oct" 25, ("October", 2025)),
    (mkMonthToken "Nov" 25, ("November", 2025)), (mkMonthToken "Dec" 25, ("December", 2025)) ]

/-- First-match lookup in an association list keyed by strings, the behaviour
of a Python `dict.get` over distinct literal keys. -/
def mapLookup {α : Type} : List (String × α) → String → Option α
  | [], _ => none
  | (k, v) :: rest, s => if s = k then some v else mapLookup rest s

/-- `parse_month` of `excel_parser.py`:
`MONTH_MAP.get(month_str, (None, None))`. A miss yields the no-match pair
`(None, None)`; no exception is possible. -/
def parse_month (s : String) : Option String × Option Nat :=
  match mapLookup MONTH_MAP s with
  | some (n, y) => (some n, some y)
  | none => (none, none)

/-- The twelve valid three-letter month abbreviations together with the full
month names, as the claim quantifies over them (also `SHORT_MONTH_MAP` of
`excel_parser.py`). -/
def MONTHS3 : List (String × String) :=
  [ ("Jan", "January"), ("Feb", "February"), ("Mar", "March"), ("Apr", "April"),
    ("May", "May"), ("Jun", "June"), ("Jul", "July"), ("Aug", "August"),
    ("Sep", "September"), ("Oct", "October"), ("Nov", "November"), ("Dec", "December") ]

/-! ## Rounding (`round(x, n)` at the response boundary)

Python's `round` rounds half to even; on an exact rational input that is the
function below. -/

/-- Round a rational to the nearest integer, ties to even (Python `round`). -/
def roundHalfEven (x : ℚ) : ℤ :=
  let f : ℤ := Int.floor x
  let r : ℚ := x - f
  if r < 1/2 then f
  else if 1/2 < r then f + 1
  else if 2 ∣ f then f else f + 1

/-- `round(x, 2)`: round to two decimal places. -/
def round2 (x : ℚ) : ℚ := (roundHalfEven (100 * x) : ℚ) / 100

/-- `round(x, 0)`: round to zero decimal places (used only for
`pct_of_revenue` in `get_cost_analysis`). -/
def round0 (x : ℚ) : ℚ := (roundHalfEven x : ℚ)

/-! ## Sales-sheet aggregation (`process_sales_data`, excel_parser.py 335-384)

A parsed row of the `Data` sheet carries the month token, the (stripped)
product and category names and six numeric cells; `safe_float` turns a
missing or non-numeric cell into 0.

The code keys its in-memory dictionary by the resolved
`(year_id, month_id, product_id)`. Within one ingestion run the entity
resolver (`get_or_create_year` / `get_month_id` / `get_or_create_category` /
`get_or_create_product`, all memoised) is a bijection between those id
triples and the semantic identities (year value, month name,
(product name, category name with the `Uncategorized` fallback)), so the
embedding keys directly by the semantic quadruple. -/

/-- `safe_float`: a missing or non-numeric cell contributes 0. -/
def safe_float (v : Option ℚ) : ℚ := v.getD 0

/-- One parsed row of the `Data` (sales) sheet. String fields are the
`safe_str` results (stripped, `""` when blank). -/
structure SalesRow where
  month : String
  products : String
  category : String
  qtyBudget : Option ℚ
  amountBudget : Option ℚ
  qtyActual : Option ℚ
  amountActual : Option ℚ
  qtyLitersBudget : Option ℚ
  qtyLiters : Option ℚ
  deriving DecidableEq

/-- Aggregation key: (year, month name, product name, category name), the
semantic content of the code's `(year_id, month_id, product_id)`. -/
abbrev SKey := Nat × String × String × String

/-- `get_or_create_category` replaces a blank category by `Uncategorized`. -/
def normCategory (c : String) : String := if c = "" then "Uncategorized" else c

/-- The aggregation key of a source row, `none` when `process_sales_data`
skips the row: unparseable month token or blank product name. (A parsed
month name always resolves to a month id, since `MONTH_MAP` only produces
the twelve seeded month names, and a non-blank product always resolves to a
product id.) -/
def rowKey (r : SalesRow) : Option SKey :=
  match parse_month r.month with
  | (some mname, some year) =>
      if r.products = "" then none
      else some (year, mname, r.products, normCategory r.category)
  | _ => none

/-- The six accumulators `[0.0] * 6` of `process_sales_data`, indexed as in
the code: 0 ↦ qty_budget, 1 ↦ amount_budget, 2 ↦ qty_actual,
3 ↦ amount_actual, 4 ↦ qty_liters_budget, 5 ↦ qty_liters_actual. -/
abbrev Totals := Fin 6 → ℚ

/-- The contribution of one source row to its key's accumulators. -/
def contrib (r : SalesRow) : Totals :=
  ![safe_float r.qtyBudget, safe_float r.amountBudget, safe_float r.qtyActual,
    safe_float r.amountActual, safe_float r.qtyLitersBudget, safe_float r.qtyLiters]

/-- Lookup in the aggregation dictionary (modelled as an association list in
insertion order, as a Python dict is). -/
def lookupTotals : List (SKey × Totals) → SKey → Option Totals
  | [], _ => none
  | (k, v) :: rest, k0 => if k0 = k then some v else lookupTotals rest k0

/-- `aggregated[key] += row`: add `v` into the entry of `k0`, creating it at
the end when absent (`if key not in aggregated: aggregated[key] = [0.0]*6`
followed by the six `+=` statements). -/
def bumpKey : List (SKey × Totals) → SKey → Totals → List (SKey × Totals)
  | [], k0, v => [(k0, v)]
  | (k, w) :: rest, k0, v =>
      if k = k0 then (k, w + v) :: rest else (k, w) :: bumpKey rest k0 v

/-- One iteration of the aggregation loop of `process_sales_data`. -/
def addRow (acc : List (SKey × Totals)) (r : SalesRow) : List (SKey × Totals) :=
  match rowKey r with
  | none => acc
  | some k => bumpKey acc k (contrib r)

/-- The whole aggregation loop: the dictionary `aggregated` after processing
all source rows; the batch inserted into `sales_data` is exactly its entry
list, one row per key. -/
def aggregateSales (rows : List SalesRow) : List (SKey × Totals) :=
  rows.foldl addRow []

/-- Does a source row map to key `k`? -/
def hasKey (k : SKey) (r : SalesRow) : Bool := rowKey r = some k

/-- The specification-side totals: the componentwise sum of the
contributions of all source rows that map to key `k`. -/
def keyTotal (rows : List SalesRow) (k : SKey) : Totals :=
  ((rows.filter (hasKey k)).map contrib).sum

/-- A July-2025 sales row for product `A` in category `Beverages` whose only
numeric cell is `Qty-Actual = q` (the worked example of the specification). -/
def julyRowA (q : ℚ) : SalesRow :=
  { month := mkMonthToken "Jul" 25, products := "A", category := "Beverages",
    qtyBudget := none, amountBudget := none, qtyActual := some q,
    amountActual := none, qtyLitersBudget := none, qtyLiters := none }

/-! ## Comparison reports (`get_comparison_sales`, app.py 212-333, and
`get_comparison_production`, app.py 335-442)

Inputs are the values the endpoint reads from the store for the requested
(year, month) and the latest successful upload: the optional `working_days.days`
row (an SQL INTEGER) and the `COALESCE(SUM(...), 0)` totals. -/

/-- One entry of the `metrics` array of a comparison response. -/
structure MetricRow where
  name : String
  budget : Option ℚ
  actual : Option ℚ
  variance : Option ℚ
  deriving DecidableEq

/-- The hardcoded `collection = 583286.95` of `get_comparison_sales`. -/
def collectionConst : ℚ := 583286.95

/-- A comparison response: `days_in_month` and the `metrics` array. -/
structure ComparisonOut where
  daysInMonth : ℤ
  metrics : List MetricRow
  deriving DecidableEq

/-- `get_comparison_sales` (app.py 212-333), given the values read from the
store: the optional working-days row and the four summed totals. -/
def comparisonSales (wdOpt : Option ℤ)
    (budgetCases actualCases budgetAmount actualAmount : ℚ) : ComparisonOut :=
  let workingDays : ℤ := wdOpt.getD 27
  let wd : ℚ := (workingDays : ℚ)
  let varianceCases := actualCases - budgetCases
  let varianceAmount := actualAmount - budgetAmount
  let dailyAvgBudget := if 0 < workingDays then budgetCases / wd else 0
  let dailyAvgActual := if 0 < workingDays then actualCases / wd else 0
  let dailyAvgVariance := dailyAvgActual - dailyAvgBudget
  let collectionEfficiency :=
    if 0 < actualAmount then collectionConst / actualAmount * 100 else 0
  { daysInMonth := workingDays,
    metrics :=
      [ ⟨"Sales Cases", some (round2 budgetCases), some (round2 actualCases),
          some (round2 varianceCases)⟩,
        ⟨"Daily Case Avg", some (round2 dailyAvgBudget), some (round2 dailyAvgActual),
          some (round2 dailyAvgVariance)⟩,
        ⟨"Sales Amount (US$)", some (round2 budgetAmount), some (round2 actualAmount),
          some (round2 varianceAmount)⟩,
        ⟨"Collection (US$)", none, some (round2 collectionConst), none⟩,
        ⟨"Collection Efficiency Ratio (% of Sales)", none,
          some (round2 collectionEfficiency), none⟩ ] }

/-- `get_comparison_production` (app.py 335-442), given the optional
working-days row, the summed budget cases (from `budget_projection`) and the
summed actual cases and liters (from `production_data`). -/
def comparisonProduction (wdOpt : Option ℤ)
    (budgetCases actualCases actualLiters : ℚ) : ComparisonOut :=
  let workingDays : ℤ := wdOpt.getD 27
  let wd : ℚ := (workingDays : ℚ)
  let varianceCases := actualCases - budgetCases
  let dailyAvgBudget := if 0 < workingDays then budgetCases / wd else 0
  let dailyAvgActual := if 0 < workingDays then actualCases / wd else 0
  let dailyAvgVariance := dailyAvgActual - dailyAvgBudget
  let dailyLiterAvg := if 0 < workingDays then actualLiters / wd else 0
  { daysInMonth := workingDays,
    metrics :=
      [ ⟨"Production Cases", some (round2 budgetCases), some (round2 actualCases),
          some (round2 varianceCases)⟩,
        ⟨"Daily Case Avg", some (round2 dailyAvgBudget), some (round2 dailyAvgActual),
          some (round2 dailyAvgVariance)⟩,
        ⟨"Production in Liters", none, some (round2 actualLiters), none⟩,
        ⟨"Daily Liter Avg", none, some (round2 dailyLiterAvg), none⟩ ] }

/-! ## Growth percentages (`get_yoy_growth`, app.py 657-795, and
`get_mom_growth`, app.py 797-904) -/

/-- The growth-percentage computation of `get_yoy_growth` (used identically
for `qty_growth_pct`, `amount_growth_pct`, and the totals): `None` unless the
prior-year value is strictly positive, otherwise
`round((curr - prev) / prev * 100, 2)`. -/
def yoyGrowthPct (prev curr : ℚ) : Option ℚ :=
  if 0 < prev then some (round2 ((curr - prev) / prev * 100)) else none

/-- One step of the month-over-month loop of `get_mom_growth`: the growth
is `None` for the first month (`prev_amount is None`) and when the previous
month's amount is not strictly positive. -/
def momGrowth (prev : Option ℚ) (curr : ℚ) : Option ℚ :=
  match prev with
  | some p => if 0 < p then some (round2 ((curr - p) / p * 100)) else none
  | none => none

/-- The month-over-month loop, carrying `prev_amount` through the months in
`month_number` order. -/
def momAux : Option ℚ → List ℚ → List (Option ℚ)
  | _, [] => []
  | prev, c :: rest => momGrowth prev c :: momAux (some c) rest

/-- The `mom_growth_pct` column of `get_mom_growth`, one entry per month
with sales data, in month order. -/
def momEntries (l : List ℚ) : List (Option ℚ) := momAux none l

/-! ## Cost analysis (`get_cost_analysis`, app.py 1158-1271) -/

/-- One row of the cost-analysis response. -/
structure CostMonthOut where
  fuel : ℚ
  lec : ℚ
  total : ℚ
  costPerCtn : ℚ
  pctOfRevenue : ℚ
  deriving DecidableEq

/-- The per-month computation of `get_cost_analysis` (app.py 1238-1265),
given the month's stored fuel and lec cost and its summed sales quantity and
amount. Every money/quantity output is `round(_, 2)`; the percentage
`pct_of_revenue` is `round(_, 0)`. -/
def costAnalysisRow (fuel lec totalQty totalAmount : ℚ) : CostMonthOut :=
  let total := fuel + lec
  let costPerCtn := if 0 < totalQty then total / totalQty else 0
  let pct := if 0 < totalAmount then total / totalAmount * 100 else 0
  ⟨round2 fuel, round2 lec, round2 total, round2 costPerCtn, round0 pct⟩

/-! ## The relational store (`database.py`, queried by `app.py`)

Rows are modelled with their key columns (and the columns a claim under
study reads); the remaining measure columns of the fact tables play no role
in the deletion/scoping claims. ISO-format `uploaded_date` timestamps
compare lexicographically, so they are modelled as naturals. -/

/-- A `file_uploads` row. -/
structure Upload where
  id : Nat
  uploadedDate : Nat
  isSuccessful : Bool
  deriving DecidableEq

/-- A row of one of the three product-keyed fact tables
(`sales_data`, `budget_projection`, `production_data`). -/
structure FactRow where
  uploadId : Nat
  yearId : Nat
  monthId : Nat
  productId : Nat
  deriving DecidableEq

/-- A `working_days` row. -/
structure WdRow where
  uploadId : Nat
  yearId : Nat
  monthId : Nat
  days : ℤ
  deriving DecidableEq

/-- A `sales_by_fpr` row. -/
structure FprRow where
  uploadId : Nat
  yearId : Nat
  monthId : Nat
  salesman : String
  location : String
  typeOfSales : String
  amount : ℚ
  deriving DecidableEq

/-- A `cost_data` row. -/
structure CostRow where
  uploadId : Nat
  yearId : Nat
  monthId : Nat
  fuel : ℚ
  lec : ℚ
  deriving DecidableEq

/-- A `products` row. -/
structure Product where
  id : Nat
  categoryId : Nat
  name : String
  deriving DecidableEq

/-- A `product_categories` row. -/
structure Category where
  id : Nat
  name : String
  deriving DecidableEq

/-- A `years` row. -/
structure YearRow where
  id : Nat
  year : Nat
  deriving DecidableEq

/-- The database state: one list per table of the schema of
`init_database` plus the `cost_data` table targeted by
`process_cost_data` / `delete_upload` / the cost endpoints. -/
structure DB where
  uploads : List Upload
  sales_data : List FactRow
  budget_projection : List FactRow
  working_days : List WdRow
  production_data : List FactRow
  sales_by_fpr : List FprRow
  cost_data : List CostRow
  products : List Product
  product_categories : List Category
  years : List YearRow
  deriving DecidableEq

/-! ## `DELETE /api/uploads/<id>` (`delete_upload`, app.py 137-198) -/

/-- The product ids referenced by the three orphan-check sub-selects of the
products cleanup: `sales_data ∪ budget_projection ∪ production_data`. -/
def refProductIds (db : DB) : List Nat :=
  db.sales_data.map FactRow.productId ++ db.budget_projection.map FactRow.productId ++
    db.production_data.map FactRow.productId

/-- The year ids referenced by the four sub-selects of the years cleanup:
`sales_data ∪ budget_projection ∪ working_days ∪ production_data`
(note: `sales_by_fpr` and `cost_data` are NOT consulted). -/
def refYearIds (db : DB) : List Nat :=
  db.sales_data.map FactRow.yearId ++ db.budget_projection.map FactRow.yearId ++
    db.working_days.map WdRow.yearId ++ db.production_data.map FactRow.yearId

/-- Result of the delete endpoint: HTTP status, the JSON error text (if
any), and the resulting store. -/
structure DeleteResult where
  status : Nat
  error : Option String
  db : DB
  deriving DecidableEq

/-- The tables referenced by the successive SQL statements of
`delete_upload` (app.py 151-190), in execution order: the six per-table
fact deletes, the upload-record delete, then the three orphan cleanups with
their sub-selects. Preparing a statement against a table that is not in the
schema raises `sqlite3.OperationalError: no such table: <t>`. -/
def deleteUploadStmtTables : List (List String) :=
  [ ["sales_data"], ["budget_projection"], ["working_days"],
    ["production_data"], ["sales_by_fpr"], ["cost_data"], ["file_uploads"],
    ["products", "sales_data", "budget_projection", "production_data"],
    ["product_categories", "products"],
    ["years", "sales_data", "budget_projection", "working_days", "production_data"] ]

/-- The committed store of a successful run of the delete statements
(app.py 151-190): the six per-upload fact deletes, the upload-record
delete, then the orphaned products (not referenced by the three
product-keyed fact tables), the orphaned categories (not referenced by any
remaining product) and the orphaned years (not referenced by the four
tables of `refYearIds`). -/
def delete_upload_cascade (db : DB) (uploadId : Nat) : DB :=
  let db1 : DB := { db with
    sales_data := db.sales_data.filter (fun r => decide (r.uploadId ≠ uploadId)),
    budget_projection := db.budget_projection.filter (fun r => decide (r.uploadId ≠ uploadId)),
    working_days := db.working_days.filter (fun r => decide (r.uploadId ≠ uploadId)),
    production_data := db.production_data.filter (fun r => decide (r.uploadId ≠ uploadId)),
    sales_by_fpr := db.sales_by_fpr.filter (fun r => decide (r.uploadId ≠ uploadId)),
    cost_data := db.cost_data.filter (fun r => decide (r.uploadId ≠ uploadId)),
    uploads := db.uploads.filter (fun u => decide (u.id ≠ uploadId)) }
  let db2 : DB := { db1 with
    products := db1.products.filter (fun p => decide (p.id ∈ refProductIds db1)) }
  let db3 : DB := { db2 with
    product_categories := db2.product_categories.filter
      (fun c => decide (c.id ∈ db2.products.map Product.categoryId)) }
  let db4 : DB := { db3 with
    years := db3.years.filter (fun y => decide (y.id ∈ refYearIds db3)) }
  db4

/-- `delete_upload` (app.py 137-198), on a store whose tables are `schema`:
404 when the id is unknown (the existence check touches only
`file_uploads`, which always exists). Otherwise the statements run in
order; if any of them references a table outside the schema, the raised
`no such table` error is caught by the `except` clause, which answers 500
— and since `conn.commit()` was never reached, closing the connection
rolls the earlier deletes back, leaving the store unchanged. Only when
every referenced table exists does the endpoint commit the cascade and
answer 200. The schema `init_database` creates lacks `cost_data`, so on
the program's own store the 500 branch is always taken. -/
def delete_upload (schema : List String) (db : DB) (uploadId : Nat) : DeleteResult :=
  if db.uploads.any (fun u => decide (u.id = uploadId)) then
    match (deleteUploadStmtTables.flatMap id).find? (fun t => decide (t ∉ schema)) with
    | some t => ⟨500, some ("no such table: " ++ t), db⟩
    | none => ⟨200, none, delete_upload_cascade db uploadId⟩
  else ⟨404, some "Upload not found", db⟩

/-- Concrete store for the delete-endpoint analysis: two successful
uploads; upload 1 owns one `sales_by_fpr` row referencing year id 10; year
10 is the only `years` row. -/
def dbFpr : DB :=
  { uploads := [⟨1, 0, true⟩, ⟨2, 1, true⟩],
    sales_data := [], budget_projection := [], working_days := [],
    production_data := [],
    sales_by_fpr := [⟨1, 10, 7, "Smith", "North", "Retail", 5⟩],
    cost_data := [],
    products := [], product_categories := [],
    years := [⟨10, 2024⟩] }

/-! ## Latest-successful-upload scoping (`get_latest_upload_id`, app.py
27-39, and the report endpoints) -/

/-- One fold step of `ORDER BY uploaded_date DESC LIMIT 1`: keep the row
with the later date. -/
def pickLater (acc : Option Upload) (u : Upload) : Option Upload :=
  match acc with
  | none => some u
  | some b => if b.uploadedDate < u.uploadedDate then some u else some b

/-- The row returned by
`SELECT id FROM file_uploads WHERE is_successful = 1 ORDER BY uploaded_date DESC LIMIT 1`. -/
def latestUpload (db : DB) : Option Upload :=
  (db.uploads.filter (fun u => u.isSuccessful)).foldl pickLater none

/-- `get_latest_upload_id` (app.py 27-39). -/
def get_latest_upload_id (db : DB) : Option Nat :=
  (latestUpload db).map Upload.id

/-! Every fact-table query issued by a report endpoint has the shape
`WHERE <dimension filter> AND upload_id = ?` with the id from
`get_latest_upload_id`, and every endpoint returns 404 (reading nothing)
when there is no successful upload. The six functions below are that
pattern, one per fact table, quantified over an arbitrary dimension filter
`dim` (which subsumes the per-endpoint year/month/`IN (...)` conditions). -/

/-- Rows of `sales_data` read by a report query with dimension filter `dim`. -/
def reportSalesRows (db : DB) (dim : FactRow → Bool) : List FactRow :=
  match get_latest_upload_id db with
  | none => []
  | some uid => db.sales_data.filter (fun r => dim r && decide (r.uploadId = uid))

/-- Rows of `budget_projection` read by a report query. -/
def reportBudgetRows (db : DB) (dim : FactRow → Bool) : List FactRow :=
  match get_latest_upload_id db with
  | none => []
  | some uid => db.budget_projection.filter (fun r => dim r && decide (r.uploadId = uid))

/-- Rows of `production_data` read by a report query. -/
def reportProductionRows (db : DB) (dim : FactRow → Bool) : List FactRow :=
  match get_latest_upload_id db with
  | none => []
  | some uid => db.production_data.filter (fun r => dim r && decide (r.uploadId = uid))

/-- Rows of `working_days` read by a report query. -/
def reportWdRows (db : DB) (dim : WdRow → Bool) : List WdRow :=
  match get_latest_upload_id db with
  | none => []
  | some uid => db.working_days.filter (fun r => dim r && decide (r.uploadId = uid))

/-- Rows of `sales_by_fpr` read by a report query. -/
def reportFprRows (db : DB) (dim : FprRow → Bool) : List FprRow :=
  match get_latest_upload_id db with
  | none => []
  | some uid => db.sales_by_fpr.filter (fun r => dim r && decide (r.uploadId = uid))

/-- Rows of `cost_data` read by a report query. -/
def reportCostRows (db : DB) (dim : CostRow → Bool) : List CostRow :=
  match get_latest_upload_id db with
  | none => []
  | some uid => db.cost_data.filter (fun r => dim r && decide (r.uploadId = uid))

/-- Concrete store for the scoping witness: upload 1 failed with one
sales row, upload 2 successful with one sales row. -/
def dbTwo : DB :=
  { uploads := [⟨1, 0, false⟩, ⟨2, 1, true⟩],
    sales_data := [⟨1, 10, 7, 100⟩, ⟨2, 10, 7, 100⟩],
    budget_projection := [], working_days := [], production_data := [],
    sales_by_fpr := [], cost_data := [],
    products := [], product_categories := [], years := [⟨10, 2025⟩] }

/-! ## `DELETE /api/product-categories/<id>` (`delete_product_category`,
app.py 1430-1466) -/

/-- `delete_product_category`: 404 when the category id is unknown, 409
(store untouched) when any product references it, otherwise delete the row. -/
def delete_product_category (db : DB) (cid : Nat) : Nat × DB :=
  match db.product_categories.find? (fun c => decide (c.id = cid)) with
  | none => (404, db)
  | some _ =>
      let productCount := (db.products.filter (fun p => decide (p.categoryId = cid))).length
      if 0 < productCount then (409, db)
      else (200, { db with
        product_categories := db.product_categories.filter (fun c => decide (c.id ≠ cid)) })

/-- Concrete store for the category-delete witness: category 1 with one
attached product. -/
def dbCat : DB :=
  { uploads := [], sales_data := [], budget_projection := [], working_days := [],
    production_data := [], sales_by_fpr := [], cost_data := [],
    products := [⟨5, 1, "Cola"⟩],
    product_categories := [⟨1, "Beverages"⟩],
    years := [] }

/-! ## Ingestion orchestration (`process_excel_file`, excel_parser.py
504-613)

The control flow is embedded over abstract stage outcomes: each sheet that
is present in the workbook either completes (yielding its months set, which
only feeds the periods list) or raises. The three fact sheets of Phase 2
run inside `process_wrapper` (excel_parser.py 544-552), which catches the
exception, so their failures are only printed and the sheet is left out of
`sheets_processed`; the remaining stages run directly inside the `try`
block, so their exceptions reach the `except` clause, which calls
`update_upload_error` and re-raises. -/

/-- The final `file_uploads` record of one ingestion run. On failure
`update_upload_error` stores the error text and leaves the sheets column
untouched (empty). -/
structure UploadRecord where
  isSuccessful : Bool
  errorMessage : Option String
  sheetsProcessed : List String
  deriving DecidableEq

/-- The outcome of each per-sheet stage of one run: `none` when the sheet is
absent from the workbook, otherwise the months set it produced or the error
it raised. -/
structure StageOutcomes where
  readSheets : Except String Unit
  workingDays : Option (Except String (List String))
  salesProjection : Option (Except String (List String))
  salesData : Option (Except String (List String))
  productionData : Option (Except String (List String))
  salesByFpr : Option (Except String (List String))
  costData : Option (Except String (List String))

/-- A sequential stage (run directly in the `try` block): an absent sheet is
skipped, a completed sheet is appended to `sheets_processed`, an exception
propagates. -/
def runSeqStage (name : String) (out : Option (Except String (List String)))
    (acc : List String) : Except String (List String) :=
  match out with
  | none => .ok acc
  | some (.ok _) => .ok (acc ++ [name])
  | some (.error e) => .error e

/-- A parallel Phase-2 stage (run under `process_wrapper`): an exception is
caught and only logged, so the run continues and the sheet is simply not
recorded as processed. -/
def runParStage (name : String) (out : Option (Except String (List String)))
    (acc : List String) : List String :=
  match out with
  | none => acc
  | some (.ok _) => acc ++ [name]
  | some (.error _) => acc

/-- `process_excel_file` (excel_parser.py 504-613): read the file, run the
two reference sheets sequentially, the three fact sheets under
`process_wrapper`, then the cost stage; mark the upload successful unless a
directly-run stage raised, in which case record the error and re-raise. -/
def process_excel_file (st : StageOutcomes) : UploadRecord :=
  match st.readSheets with
  | .error e => ⟨false, some e, []⟩
  | .ok _ =>
    match runSeqStage "Day (in Month)" st.workingDays [] with
    | .error e => ⟨false, some e, []⟩
    | .ok s1 =>
      match runSeqStage "Sales Projection 2025" st.salesProjection s1 with
      | .error e => ⟨false, some e, []⟩
      | .ok s2 =>
        let s3 := runParStage "Data" st.salesData s2
        let s4 := runParStage "Production Data" st.productionData s3
        let s5 := runParStage "SALES BY FPR" st.salesByFpr s4
        match runSeqStage "Dashboard-1" st.costData s5 with
        | .error e => ⟨false, some e, []⟩
        | .ok s6 => ⟨true, none, s6⟩

/-- Stage outcomes of a run whose `Data` (sales) sheet raises while every
other stage completes. -/
def stSalesBoom : StageOutcomes :=
  { readSheets := .ok (), workingDays := some (.ok ["July 2025"]),
    salesProjection := some (.ok ["July 2025"]),
    salesData := some (.error "boom"),
    productionData := some (.ok ["July 2025"]),
    salesByFpr := some (.ok ["July 2025"]), costData := none }

/-- Stage outcomes of a run whose `Day (in Month)` sheet raises. -/
def stWdBoom : StageOutcomes :=
  { readSheets := .ok (), workingDays := some (.error "boom-wd"),
    salesProjection := none, salesData := none, productionData := none,
    salesByFpr := none, costData := none }

/-! ## The missing `cost_data` table (`init_database`, database.py 15-193,
versus `process_cost_data`, excel_parser.py 474-501) -/

/-- The tables created by `init_database`, in order. -/
def initTables : List String :=
  [ "file_uploads", "years", "months", "product_categories", "products",
    "working_days", "budget_projection", "sales_data", "production_data",
    "sales_by_fpr" ]

/-- The `init_database` schema extended with the `cost_data` table that the
rest of the code assumes (no repository code creates it; a store can only
have it through manual intervention). Used to state what the delete
cascade does when its statements can all be prepared. -/
def fullSchema : List String := initTables ++ ["cost_data"]

/-- The first three cells of one row of `Dashboard-1` rows 110-120; a
non-string month cell is modelled as `none`. -/
structure CostCell where
  monthCell : Option String
  fuel : Option ℚ
  lec : Option ℚ
  deriving DecidableEq

/-- The number of batch entries `process_cost_data` builds: one per row
whose month cell is a string that `parse_month` matches. -/
def costBatchLen (rows : List CostCell) : Nat :=
  (rows.filter (fun r => match r.monthCell with
    | some s => (parse_month s).1.isSome
    | none => false)).length

/-- The cost stage (`process_cost_data`): `batch_insert` only calls
`executemany` when the batch is non-empty, so the `INSERT OR REPLACE INTO
cost_data` statement is prepared — and fails on a schema lacking the
`cost_data` table — exactly when at least one row parsed. -/
def costStage (schema : List String) (rows : List CostCell) : Except String (List String) :=
  if 0 < costBatchLen rows ∧ "cost_data" ∉ schema then
    .error "no such table: cost_data"
  else .ok []

/-- Stage outcomes of a run over a workbook whose `Dashboard-1` rows
110-120 contain no parseable month cell, on the `init_database` schema. -/
def stDashEmpty : StageOutcomes :=
  { readSheets := .ok (), workingDays := none, salesProjection := none,
    salesData := none, productionData := none, salesByFpr := none,
    costData := some (costStage initTables [⟨none, none, none⟩]) }

/-- Stage outcomes of a run over a workbook whose `Dashboard-1` holds one
January-2025 cost row, on the `init_database` schema. -/
def stDashJan : StageOutcomes :=
  { readSheets := .ok (), workingDays := none, salesProjection := none,
    salesData := none, productionData := none, salesByFpr := none,
    costData := some (costStage initTables
      [⟨some (mkMonthToken "Jan" 25), some 5, some 3⟩]) }

end AccountingReports

namespace AccountingReports

theorem mapLookup_eq_none {α : Type} (l : List (String × α)) (s : String) :
    mapLookup l s = none ↔ s ∉ l.map Prod.fst := by
  induction l with
  | nil => simp [mapLookup]
  | cons kv rest ih =>
    obtain ⟨k, v⟩ := kv
    by_cases h : s = k <;> simp [mapLookup, h, ih]

theorem lookupTotals_bumpKey (acc : List (SKey × Totals)) (k0 k : SKey) (v : Totals) :
    lookupTotals (bumpKey acc k0 v) k =
      if k = k0 then some ((lookupTotals acc k0).getD 0 + v)
      else lookupTotals acc k := by
  induction acc with
  | nil =>
    by_cases h : k = k0 <;> simp [bumpKey, lookupTotals, h]
  | cons kv rest ih =>
    obtain ⟨k1, w⟩ := kv
    by_cases h1 : k1 = k0
    · subst h1
      by_cases h2 : k = k1 <;> simp [bumpKey, lookupTotals, h2]
    · by_cases h2 : k = k1
      · subst h2
        simp [bumpKey, lookupTotals, h1, Ne.symm h1]
      · simp [bumpKey, lookupTotals, h1, h2, ih, Ne.symm h1]

theorem keys_bumpKey (acc : List (SKey × Totals)) (k0 : SKey) (v : Totals) :
    (bumpKey acc k0 v).map Prod.fst =
      if k0 ∈ acc.map Prod.fst then acc.map Prod.fst
      else acc.map Prod.fst ++ [k0] := by
  induction acc with
  | nil => simp [bumpKey]
  | cons kv rest ih =>
    obtain ⟨k1, w⟩ := kv
    by_cases h1 : k1 = k0
    · subst h1; simp [bumpKey]
    · by_cases hm : k0 ∈ rest.map Prod.fst <;>
        simp [bumpKey, h1, ih, hm, Ne.symm h1]

theorem nodupKeys_bumpKey (acc : List (SKey × Totals)) (k0 : SKey) (v : Totals)
    (h : (acc.map Prod.fst).Nodup) : ((bumpKey acc k0 v).map Prod.fst).Nodup := by
  rw [keys_bumpKey]
  split
  · exact h
  · next hmem =>
      exact h.append (List.nodup_singleton k0) (List.disjoint_singleton.mpr hmem)

theorem nodupKeys_foldl (rows : List SalesRow) :
    ∀ acc : List (SKey × Totals), (acc.map Prod.fst).Nodup →
      ((rows.foldl addRow acc).map Prod.fst).Nodup := by
  induction rows with
  | nil => intro acc h; simpa using h
  | cons r rows ih =>
    intro acc h
    simp only [List.foldl_cons]
    apply ih
    unfold addRow
    cases hr : rowKey r with
    | none => exact h
    | some k0 => exact nodupKeys_bumpKey _ _ _ h

theorem keyTotal_nil (k : SKey) : keyTotal [] k = 0 := by
  simp [keyTotal]

theorem keyTotal_cons (r : SalesRow) (rows : List SalesRow) (k : SKey) :
    keyTotal (r :: rows) k =
      if hasKey k r then contrib r + keyTotal rows k else keyTotal rows k := by
  by_cases h : hasKey k r <;> simp [keyTotal, List.filter_cons, h]

theorem lookupTotals_foldl (rows : List SalesRow) :
    ∀ acc : List (SKey × Totals), ∀ k : SKey,
      lookupTotals (rows.foldl addRow acc) k =
        match lookupTotals acc k with
        | some w => some (w + keyTotal rows k)
        | none => if rows.any (hasKey k) then some (keyTotal rows k) else none := by
  induction rows with
  | nil =>
    intro acc k
    cases h : lookupTotals acc k <;> simp [keyTotal_nil, h]
  | cons r rows ih =>
    intro acc k
    simp only [List.foldl_cons]
    rw [ih (addRow acc r) k]
    cases hr : rowKey r with
    | none =>
      have hk : hasKey k r = false := by simp [hasKey, hr]
      simp [addRow, hr, keyTotal_cons, hk]
    | some k0 =>
      by_cases hkk : k = k0
      · subst hkk
        have hk : hasKey k r = true := by simp [hasKey, hr]
        rw [show addRow acc r = bumpKey acc k (contrib r) by simp [addRow, hr]]
        rw [lookupTotals_bumpKey acc k k (contrib r), if_pos rfl]
        cases h : lookupTotals acc k with
        | none =>
          simp [h, keyTotal_cons, hk, add_assoc, List.any_cons]
        | some w =>
          simp [h, keyTotal_cons, hk, add_assoc]
      · have hk : hasKey k r = false := by simp [hasKey, hr, Ne.symm, hkk]
        rw [show addRow acc r = bumpKey acc k0 (contrib r) by simp [addRow, hr]]
        rw [lookupTotals_bumpKey acc k0 k (contrib r), if_neg hkk]
        simp [keyTotal_cons, hk, List.any_cons]

theorem lookupTotals_aggregateSales (rows : List SalesRow) (k : SKey) :
    lookupTotals (aggregateSales rows) k =
      if rows.any (hasKey k) then some (keyTotal rows k) else none := by
  have h := lookupTotals_foldl rows [] k
  simpa [aggregateSales, lookupTotals] using h

theorem any_hasKey_perm {rows rows' : List SalesRow} (h : rows.Perm rows') (k : SKey) :
    rows.any (hasKey k) = rows'.any (hasKey k) := by
  cases hb : rows'.any (hasKey k) with
  | true =>
    rw [List.any_eq_true] at hb ⊢
    obtain ⟨r, hr, hrk⟩ := hb
    exact ⟨r, h.mem_iff.mpr hr, hrk⟩
  | false =>
    rw [List.any_eq_false] at hb ⊢
    intro r hr
    exact hb r (h.mem_iff.mp hr)

theorem keyTotal_perm {rows rows' : List SalesRow} (h : rows.Perm rows') (k : SKey) :
    keyTotal rows k = keyTotal rows' k :=
  ((h.filter (hasKey k)).map contrib).sum_eq

/-- CLAIM C4 (confirmed): for every list of parsed sales rows,
`process_sales_data` stores at most one `sales_data` row per
(year, month, product) key (the keys of the aggregation dictionary are
pairwise distinct), the stored accumulators of a key are exactly the
componentwise sum of the `safe_float` cell values of all source rows that
map to that key (so two July-2025 rows for one product with `Qty-Actual` 10
and 15 collapse to a single row with `qty_actual = 25`), and those per-key
totals are the same for every permutation of the input rows. -/
theorem C4_sales_aggregation (rows : List SalesRow) :
    ((aggregateSales rows).map Prod.fst).Nodup ∧
    (∀ k : SKey, lookupTotals (aggregateSales rows) k =
        if rows.any (hasKey k) then some (keyTotal rows k) else none) ∧
    (∀ rows' : List SalesRow, rows.Perm rows' → ∀ k : SKey,
        lookupTotals (aggregateSales rows) k =
          lookupTotals (aggregateSales rows') k) := by
  refine ⟨nodupKeys_foldl rows [] (by simp), lookupTotals_aggregateSales rows, ?_⟩
  intro rows' h k
  rw [lookupTotals_aggregateSales rows k, lookupTotals_aggregateSales rows' k,
    any_hasKey_perm h k, keyTotal_perm h k]

/-- Witness for C4: the specification's worked example. Two July-2025 rows
for product `A` (category `Beverages`) with `Qty-Actual` 10 and 15 are
stored as one row whose `qty_actual` accumulator (index 2) is 25, and
swapping the two rows gives the same stored dictionary entry. -/
theorem C4_sales_aggregation_witness :
    lookupTotals (aggregateSales [julyRowA 10, julyRowA 15])
        (2025, "July", "A", "Beverages") =
      lookupTotals (aggregateSales [julyRowA 15, julyRowA 10])
        (2025, "July", "A", "Beverages") ∧
    (lookupTotals (aggregateSales [julyRowA 10, julyRowA 15])
        (2025, "July", "A", "Beverages")).map (fun t => t 2) = some 25 :=
  ⟨(C4_sales_aggregation [julyRowA 10, julyRowA 15]).2.2 [julyRowA 15, julyRowA 10]
      (List.Perm.swap (julyRowA 15) (julyRowA 10) []) (2025, "July", "A", "Beverages"),
   by
    rw [show lookupTotals (aggregateSales [julyRowA 10, julyRowA 15])
          (2025, "July", "A", "Beverages") =
        some (contrib (julyRowA 10) + contrib (julyRowA 15)) from rfl]
    simp [contrib, julyRowA, safe_float]
    norm_num⟩

end AccountingReports

namespace AccountingReports

/-- CLAIM C1 (as stated, refuted): the claim demands that *every* token
`Mon'YY` built from a valid three-letter month abbreviation and a two-digit
year parses to (full month name, 2000+YY). `Jan'23` is such a token
(`"Jan"` is a valid abbreviation and `23` a two-digit year), yet
`parse_month` — a fixed table of the 24 tokens of 2024/2025 only — returns
the no-match pair for it instead of `(January, 2023)`. -/
theorem C1_every_two_digit_year_refuted :
    ("Jan", "January") ∈ MONTHS3 ∧ 23 < 100 ∧
      parse_month (mkMonthToken "Jan" 23) = (none, none) ∧
      parse_month (mkMonthToken "Jan" 23) ≠ (some "January", some 2023) := by
  refine ⟨by decide, by decide, by decide, by decide⟩

/-- CLAIM C1 (amended, proved): `parse_month` returns
(full month name, 2000+YY) exactly for the 24 tokens `Mon'YY` with a valid
three-letter abbreviation and `YY ∈ {24, 25}`; every string that is not a key
of `MONTH_MAP` returns the no-match pair `(None, None)` rather than raising
an error. -/
theorem C1_parse_month_amended :
    (∀ p ∈ MONTHS3, ∀ yy ∈ [24, 25],
        parse_month (mkMonthToken p.1 yy) = (some p.2, some (2000 + yy))) ∧
    (∀ s : String, s ∉ MONTH_MAP.map Prod.fst → parse_month s = (none, none)) := by
  constructor
  · decide
  · intro s hs
    unfold parse_month
    rw [(mapLookup_eq_none MONTH_MAP s).mpr hs]

/-- Witness for C1: the amended theorem evaluated at the concrete token
`Jul'25` (a hit) and at the string `Hello` (a miss). -/
theorem C1_parse_month_witness :
    parse_month (mkMonthToken "Jul" 25) = (some "July", some 2025) ∧
    parse_month "Hello" = (none, none) :=
  ⟨C1_parse_month_amended.1 ("Jul", "July") (by decide) 25 (by decide),
   C1_parse_month_amended.2 "Hello" (by decide)⟩

theorem round2_zero : round2 0 = 0 := by
  norm_num [round2, roundHalfEven]

/-- CLAIM C5 (confirmed): in the comparison reports, every metric that has
both a budget and an actual value has variance = actual − budget (computed
on the raw values, each reported after `round(_, 2)`); the daily averages
divide the metric by the working-days value of the same upload, year and
month; a missing working-days row defaults to 27; and the daily averages
are 0 when the stored working-days value is 0. -/
theorem C5_variance_and_daily_average (wdOpt : Option ℤ)
    (bc ac ba aa pb pa pl : ℚ) :
    (∀ m ∈ (comparisonSales wdOpt bc ac ba aa).metrics ++
        (comparisonProduction wdOpt pb pa pl).metrics,
      ∀ b a v : ℚ, m.budget = some b → m.actual = some a → m.variance = some v →
        ∃ braw araw : ℚ, b = round2 braw ∧ a = round2 araw ∧ v = round2 (araw - braw)) ∧
    ((comparisonSales wdOpt bc ac ba aa).metrics[1]?.map MetricRow.actual =
      some (some (round2
        (if 0 < wdOpt.getD 27 then ac / ((wdOpt.getD 27 : ℤ) : ℚ) else 0)))) ∧
    (wdOpt = none →
      (comparisonSales wdOpt bc ac ba aa).metrics[1]?.map MetricRow.actual =
        some (some (round2 (ac / 27)))) ∧
    (wdOpt = some 0 →
      (comparisonSales wdOpt bc ac ba aa).metrics[1]?.map MetricRow.actual =
          some (some 0) ∧
      (comparisonProduction wdOpt pb pa pl).metrics[1]?.map MetricRow.actual =
          some (some 0) ∧
      (comparisonProduction wdOpt pb pa pl).metrics[3]?.map MetricRow.actual =
          some (some 0)) := by
  refine ⟨?_, ?_, ?_, ?_⟩
  · intro m hm
    simp only [comparisonSales, comparisonProduction, List.mem_append,
      List.mem_cons, List.not_mem_nil, or_false] at hm
    rcases hm with (rfl | rfl | rfl | rfl | rfl) | (rfl | rfl | rfl | rfl) <;>
      intro b a v hb ha hv <;>
      simp only [Option.some.injEq] at hb ha hv <;>
      first
        | exact absurd hb (by simp)
        | (subst hb; subst ha; subst hv; exact ⟨_, _, rfl, rfl, rfl⟩)
  · rfl
  · intro h
    subst h
    simp [comparisonSales]
  · intro h
    subst h
    refine ⟨?_, ?_, ?_⟩ <;> simp [comparisonSales, comparisonProduction, round2_zero]

/-- Witness for C5: at working-days 0 the reported daily average is 0, and
the Sales Cases metric pair of a concrete request decomposes as
budget/actual/variance rounded from raw values with variance = raw actual −
raw budget. -/
theorem C5_witness :
    (comparisonSales (some 0) 1 2 3 4).metrics[1]?.map MetricRow.actual =
        some (some 0) ∧
    (∃ braw araw : ℚ, round2 (1 : ℚ) = round2 braw ∧ round2 (2 : ℚ) = round2 araw ∧
        round2 ((2 : ℚ) - 1) = round2 (araw - braw)) := by
  refine ⟨((C5_variance_and_daily_average (some 0) 1 2 3 4 0 0 0).2.2.2 rfl).1, ?_⟩
  exact (C5_variance_and_daily_average (some 0) 1 2 3 4 0 0 0).1
    ⟨"Sales Cases", some (round2 1), some (round2 2), some (round2 (2 - 1))⟩
    (by simp [comparisonSales]) (round2 1) (round2 2) (round2 (2 - 1)) rfl rfl rfl

theorem momAux_getElem_zero (prev : Option ℚ) (l : List ℚ) :
    (momAux prev l)[0]? = (l[0]?).map (fun c => momGrowth prev c) := by
  cases l <;> simp [momAux]

theorem momAux_getElem_succ (l : List ℚ) :
    ∀ (prev : Option ℚ) (i : ℕ),
      (momAux prev l)[i + 1]? = (l[i + 1]?).map (fun c => momGrowth l[i]? c) := by
  induction l with
  | nil => intro prev i; simp [momAux]
  | cons c rest ih =>
    intro prev i
    cases i with
    | zero =>
      simp only [momAux, List.getElem?_cons_succ, List.getElem?_cons_zero]
      exact momAux_getElem_zero (some c) rest
    | succ j =>
      simp only [momAux, List.getElem?_cons_succ]
      exact ih (some c) j

/-- CLAIM C6 (as stated, refuted): the claim says the growth percentage is
absent *exactly* when the prior value is 0. With prior value −100 (possible,
since the summed actuals are plain sums of spreadsheet cells, which may be
negative) the code still yields `None`, because its guard is `prev > 0`,
not `prev != 0`. -/
theorem C6_zero_prior_iff_refuted :
    ¬ (yoyGrowthPct (-100) 50 = none ↔ ((-100 : ℚ) = 0)) := by
  intro h
  have h1 : yoyGrowthPct (-100) 50 = none := by
    unfold yoyGrowthPct
    rw [if_neg (by norm_num : ¬ (0 : ℚ) < -100)]
  have h2 := h.mp h1
  norm_num at h2

/-- CLAIM C6 (amended, proved): in the YoY and MoM growth reports a growth
percentage is null/absent exactly when there is no prior period or the
prior-period value is not strictly positive; whenever the prior-period value
is strictly positive it equals `(curr − prev) / prev × 100` rounded to two
decimal places. -/
theorem C6_growth_amended :
    (∀ prev curr : ℚ,
        (yoyGrowthPct prev curr = none ↔ ¬ 0 < prev) ∧
        (0 < prev →
          yoyGrowthPct prev curr = some (round2 ((curr - prev) / prev * 100)))) ∧
    (∀ l : List ℚ, ∀ i : ℕ, ∀ p c : ℚ, l[i]? = some p → l[i + 1]? = some c →
        (momEntries l)[i + 1]? =
          some (if 0 < p then some (round2 ((c - p) / p * 100)) else none)) ∧
    (∀ l : List ℚ, ∀ c : ℚ, l[0]? = some c → (momEntries l)[0]? = some none) := by
  refine ⟨?_, ?_, ?_⟩
  · intro prev curr
    constructor
    · unfold yoyGrowthPct
      split <;> simp_all
    · intro h
      unfold yoyGrowthPct
      rw [if_pos h]
  · intro l i p c hp hc
    rw [momEntries, momAux_getElem_succ l none i, hp, hc]
    simp [momGrowth]
  · intro l c hc
    rw [momEntries, momAux_getElem_zero none l, hc]
    simp [momGrowth]

/-- Witness for C6: with a prior amount of 50 and a current amount of 100
both growth computations report 100%, and the first month of the MoM report
has no growth value. -/
theorem C6_growth_witness :
    yoyGrowthPct 50 100 = some (round2 100) ∧
    (momEntries [50, 100])[1]? = some (some (round2 100)) ∧
    (momEntries [50, 100])[0]? = some none := by
  refine ⟨?_, ?_, ?_⟩
  · have h := (C6_growth_amended.1 50 100).2 (by norm_num)
    rw [h]
    norm_num
  · have h := C6_growth_amended.2.1 [50, 100] 0 50 100 rfl rfl
    rw [h, if_pos (by norm_num : (0 : ℚ) < 50)]
    norm_num
  · exact C6_growth_amended.2.2 [50, 100] 50 rfl

/-- CLAIM C7 (confirmed): every money or quantity value of the modelled
report responses (the comparison metrics; fuel, lec, total and cost-per-ctn
of the cost analysis) is the `round(_, 2)` image of its raw derived value,
applied only at the response boundary, while the ingestion-side aggregation
stores the exact, unrounded sums of the source cells. (`pct_of_revenue` and
the collection-efficiency ratio are percentages, not money/quantity values;
the former is rounded to 0 decimals.) -/
theorem C7_rounding_at_boundary_only (wdOpt : Option ℤ)
    (bc ac ba aa fuel lec tq ta : ℚ) (rows : List SalesRow) :
    ((comparisonSales wdOpt bc ac ba aa).metrics.map
        (fun m => (m.budget, m.actual, m.variance)) =
      [ (some (round2 bc), some (round2 ac), some (round2 (ac - bc))),
        (some (round2 (if 0 < wdOpt.getD 27 then bc / ((wdOpt.getD 27 : ℤ) : ℚ) else 0)),
         some (round2 (if 0 < wdOpt.getD 27 then ac / ((wdOpt.getD 27 : ℤ) : ℚ) else 0)),
         some (round2 ((if 0 < wdOpt.getD 27 then ac / ((wdOpt.getD 27 : ℤ) : ℚ) else 0) -
                       (if 0 < wdOpt.getD 27 then bc / ((wdOpt.getD 27 : ℤ) : ℚ) else 0)))),
        (some (round2 ba), some (round2 aa), some (round2 (aa - ba))),
        (none, some (round2 collectionConst), none),
        (none, some (round2 (if 0 < aa then collectionConst / aa * 100 else 0)), none) ]) ∧
    (costAnalysisRow fuel lec tq ta).fuel = round2 fuel ∧
    (costAnalysisRow fuel lec tq ta).lec = round2 lec ∧
    (costAnalysisRow fuel lec tq ta).total = round2 (fuel + lec) ∧
    (costAnalysisRow fuel lec tq ta).costPerCtn =
      round2 (if 0 < tq then (fuel + lec) / tq else 0) ∧
    (∀ k : SKey, lookupTotals (aggregateSales rows) k =
        if rows.any (hasKey k) then some (keyTotal rows k) else none) :=
  ⟨rfl, rfl, rfl, rfl, rfl, lookupTotals_aggregateSales rows⟩

/-- CLAIM C2 (as stated, refuted): on the schema the program itself creates
(`init_database` builds only ten tables, none of them `cost_data`), the
`DELETE FROM cost_data` statement of `delete_upload` raises
`no such table: cost_data`, the handler answers 500, and the earlier
uncommitted deletes roll back when the connection closes — so for the
existing upload id 2 of `dbFpr` the endpoint deletes nothing: the upload
record and every fact row survive. And even on a store that does have a
`cost_data` table, the year orphan-cleanup consults only `sales_data`,
`budget_projection`, `working_days` and `production_data`, so year 10 —
still referenced by the remaining `sales_by_fpr` row of upload 1 — is
removed, against "reference rows still referenced by fact rows of other
uploads are preserved". -/
theorem C2_delete_upload_counterexample :
    "cost_data" ∉ initTables ∧
    delete_upload initTables dbFpr 2 = ⟨500, some "no such table: cost_data", dbFpr⟩ ∧
    (⟨2, 1, true⟩ : Upload) ∈ (delete_upload initTables dbFpr 2).db.uploads ∧
    (delete_upload fullSchema dbFpr 2).db.sales_by_fpr.map FprRow.yearId = [10] ∧
    dbFpr.years = [⟨10, 2024⟩] ∧
    (delete_upload fullSchema dbFpr 2).db.years = [] :=
  ⟨by decide, rfl, by decide, rfl, rfl, rfl⟩

/-- CLAIM C2 (amended, proved): for every existing upload id, on the schema
`init_database` creates — which lacks the `cost_data` table the endpoint's
sixth DELETE references — the endpoint answers 500 with the error
`no such table: cost_data` and leaves the store unchanged (the earlier
deletes were never committed). Only on a store whose schema additionally
holds `cost_data` does it answer 200 and perform the cascade; afterwards
(i) a fact row of any of the six fact tables is stored iff it was stored
before and does not belong to the deleted upload, and likewise for the
upload record; (ii) a product survives iff it is referenced by a remaining
`sales_data`, `budget_projection` or `production_data` row; (iii) a
category survives iff a surviving product references it; (iv) a year
survives iff it is referenced by a remaining `sales_data`,
`budget_projection`, `working_days` or `production_data` row — so a year
referenced only by `sales_by_fpr`/`cost_data` rows of other uploads is
deleted as well. -/
theorem C2_delete_upload_amended (db : DB) (uid : Nat)
    (hex : db.uploads.any (fun u => decide (u.id = uid)) = true) :
    delete_upload initTables db uid = ⟨500, some "no such table: cost_data", db⟩ ∧
    (delete_upload fullSchema db uid).status = 200 ∧
    (∀ u : Upload, u ∈ (delete_upload fullSchema db uid).db.uploads ↔
        u ∈ db.uploads ∧ u.id ≠ uid) ∧
    (∀ r : FactRow, r ∈ (delete_upload fullSchema db uid).db.sales_data ↔
        r ∈ db.sales_data ∧ r.uploadId ≠ uid) ∧
    (∀ r : FactRow, r ∈ (delete_upload fullSchema db uid).db.budget_projection ↔
        r ∈ db.budget_projection ∧ r.uploadId ≠ uid) ∧
    (∀ r : WdRow, r ∈ (delete_upload fullSchema db uid).db.working_days ↔
        r ∈ db.working_days ∧ r.uploadId ≠ uid) ∧
    (∀ r : FactRow, r ∈ (delete_upload fullSchema db uid).db.production_data ↔
        r ∈ db.production_data ∧ r.uploadId ≠ uid) ∧
    (∀ r : FprRow, r ∈ (delete_upload fullSchema db uid).db.sales_by_fpr ↔
        r ∈ db.sales_by_fpr ∧ r.uploadId ≠ uid) ∧
    (∀ r : CostRow, r ∈ (delete_upload fullSchema db uid).db.cost_data ↔
        r ∈ db.cost_data ∧ r.uploadId ≠ uid) ∧
    (∀ p : Product, p ∈ (delete_upload fullSchema db uid).db.products ↔
        p ∈ db.products ∧ p.id ∈ refProductIds (delete_upload fullSchema db uid).db) ∧
    (∀ c : Category, c ∈ (delete_upload fullSchema db uid).db.product_categories ↔
        c ∈ db.product_categories ∧
          c.id ∈ (delete_upload fullSchema db uid).db.products.map Product.categoryId) ∧
    (∀ y : YearRow, y ∈ (delete_upload fullSchema db uid).db.years ↔
        y ∈ db.years ∧ y.id ∈ refYearIds (delete_upload fullSchema db uid).db) := by
  have h500 : delete_upload initTables db uid =
      ⟨500, some "no such table: cost_data", db⟩ := by
    unfold delete_upload
    rw [if_pos hex]
    rfl
  have h200 : delete_upload fullSchema db uid =
      ⟨200, none, delete_upload_cascade db uid⟩ := by
    unfold delete_upload
    rw [if_pos hex]
    rfl
  refine ⟨h500, ?_, ?_, ?_, ?_, ?_, ?_, ?_, ?_, ?_, ?_, ?_⟩
  all_goals rw [h200]
  all_goals simp [delete_upload_cascade, List.mem_filter, refProductIds, refYearIds]

/-- Witness for C2: deleting the existing upload 2 of `dbFpr` answers 500
and changes nothing on the `init_database` schema, while on a store with a
`cost_data` table it answers 200 and the `sales_by_fpr` row of upload 1
survives. -/
theorem C2_delete_upload_witness :
    delete_upload initTables dbFpr 2 = ⟨500, some "no such table: cost_data", dbFpr⟩ ∧
    (delete_upload fullSchema dbFpr 2).status = 200 ∧
    ((⟨1, 10, 7, "Smith", "North", "Retail", 5⟩ : FprRow) ∈
        (delete_upload fullSchema dbFpr 2).db.sales_by_fpr ↔
      (⟨1, 10, 7, "Smith", "North", "Retail", 5⟩ : FprRow) ∈ dbFpr.sales_by_fpr ∧
        (1 : Nat) ≠ 2) := by
  have h := C2_delete_upload_amended dbFpr 2 (by decide)
  exact ⟨h.1, h.2.1, h.2.2.2.2.2.2.2.1 ⟨1, 10, 7, "Smith", "North", "Retail", 5⟩⟩

theorem process_excel_file_success_iff (st : StageOutcomes) :
    (process_excel_file st).isSuccessful = true ↔
      ((∃ u, st.readSheets = Except.ok u) ∧
        (∀ e, st.workingDays ≠ some (Except.error e)) ∧
        (∀ e, st.salesProjection ≠ some (Except.error e)) ∧
        (∀ e, st.costData ≠ some (Except.error e))) := by
  obtain ⟨rs, wd, sp, sd, pd, fp, cd⟩ := st
  rcases rs with e | u <;> rcases wd with _ | (e1 | m1) <;>
    rcases sp with _ | (e2 | m2) <;> rcases cd with _ | (e3 | m3) <;>
      simp [process_excel_file, runSeqStage]

theorem process_excel_file_failure_msg (st : StageOutcomes)
    (h : (process_excel_file st).isSuccessful = false) :
    ∃ e, (process_excel_file st).errorMessage = some e ∧
      (st.readSheets = Except.error e ∨ st.workingDays = some (Except.error e) ∨
       st.salesProjection = some (Except.error e) ∨
       st.costData = some (Except.error e)) := by
  obtain ⟨rs, wd, sp, sd, pd, fp, cd⟩ := st
  rcases rs with e | u <;> rcases wd with _ | (e1 | m1) <;>
    rcases sp with _ | (e2 | m2) <;> rcases cd with _ | (e3 | m3) <;>
      simp_all [process_excel_file, runSeqStage]

theorem process_excel_file_cost_error (st : StageOutcomes) (e : String)
    (h1 : ∃ u, st.readSheets = Except.ok u)
    (h2 : ∀ d, st.workingDays ≠ some (Except.error d))
    (h3 : ∀ d, st.salesProjection ≠ some (Except.error d))
    (hc : st.costData = some (Except.error e)) :
    (process_excel_file st).errorMessage = some e ∧
      (process_excel_file st).isSuccessful = false := by
  obtain ⟨rs, wd, sp, sd, pd, fp, cd⟩ := st
  obtain ⟨u, hu⟩ := h1
  subst hu
  subst hc
  rcases wd with _ | (e1 | m1)
  · rcases sp with _ | (e2 | m2)
    · simp [process_excel_file, runSeqStage]
    · exact absurd rfl (h3 e2)
    · simp [process_excel_file, runSeqStage]
  · exact absurd rfl (h2 e1)
  · rcases sp with _ | (e2 | m2)
    · simp [process_excel_file, runSeqStage]
    · exact absurd rfl (h3 e2)
    · simp [process_excel_file, runSeqStage]

/-- CLAIM C3 (as stated, refuted): an error raised while processing the
`Data` (sales) sheet is caught by `process_wrapper`, the sheet is only
dropped from `sheets_processed`, and the upload is still marked
successful — contradicting "no upload whose processing of any sheet
encountered an error is marked successful". -/
theorem C3_swallowed_parallel_error_counterexample :
    stSalesBoom.salesData = some (Except.error "boom") ∧
    (process_excel_file stSalesBoom).isSuccessful = true ∧
    "Data" ∉ (process_excel_file stSalesBoom).sheetsProcessed :=
  ⟨rfl, rfl, by decide⟩

/-- CLAIM C3 (amended, proved): an ingestion run is recorded successful
exactly when the file was read and none of the directly-run stages
(`Day (in Month)`, `Sales Projection 2025`, the `Dashboard-1` cost stage)
raised; when it is recorded failed, the stored error message is the text of
the raising directly-run stage. Errors of the three parallel fact sheets
(`Data`, `Production Data`, `SALES BY FPR`) are caught by
`process_wrapper`: the sheet is dropped from `sheets_processed` and the
upload is still marked successful. -/
theorem C3_error_recording_amended (st : StageOutcomes) :
    ((process_excel_file st).isSuccessful = true ↔
      ((∃ u, st.readSheets = Except.ok u) ∧
        (∀ e, st.workingDays ≠ some (Except.error e)) ∧
        (∀ e, st.salesProjection ≠ some (Except.error e)) ∧
        (∀ e, st.costData ≠ some (Except.error e)))) ∧
    ((process_excel_file st).isSuccessful = false →
      ∃ e, (process_excel_file st).errorMessage = some e ∧
        (st.readSheets = Except.error e ∨
         st.workingDays = some (Except.error e) ∨
         st.salesProjection = some (Except.error e) ∨
         st.costData = some (Except.error e))) :=
  ⟨process_excel_file_success_iff st, process_excel_file_failure_msg st⟩

/-- Witness for C3: a run whose `Day (in Month)` stage raises `boom-wd` is
recorded failed with that error text. -/
theorem C3_error_recording_witness :
    ∃ e, (process_excel_file stWdBoom).errorMessage = some e ∧
      (stWdBoom.readSheets = Except.error e ∨
       stWdBoom.workingDays = some (Except.error e) ∨
       stWdBoom.salesProjection = some (Except.error e) ∨
       stWdBoom.costData = some (Except.error e)) :=
  (C3_error_recording_amended stWdBoom).2 rfl

theorem foldl_pickLater_spec (l : List Upload) :
    ∀ (acc : Option Upload) (u : Upload), l.foldl pickLater acc = some u →
      (acc = some u ∨ u ∈ l) ∧
      (∀ b, acc = some b → b.uploadedDate ≤ u.uploadedDate) ∧
      (∀ v ∈ l, v.uploadedDate ≤ u.uploadedDate) := by
  induction l with
  | nil =>
    intro acc u h
    simp only [List.foldl_nil] at h
    refine ⟨Or.inl h, ?_, by simp⟩
    intro b hb
    rw [h] at hb
    injection hb with hb
    rw [hb]
  | cons w l ih =>
    intro acc u h
    rw [List.foldl_cons] at h
    obtain ⟨h1, h2, h3⟩ := ih (pickLater acc w) u h
    refine ⟨?_, ?_, ?_⟩
    · rcases h1 with h1 | h1
      · cases acc with
        | none =>
          simp only [pickLater] at h1
          injection h1 with h1
          exact Or.inr (by rw [← h1]; exact List.mem_cons_self w l)
        | some b =>
          simp only [pickLater] at h1
          split_ifs at h1
          · injection h1 with h1
            exact Or.inr (by rw [← h1]; exact List.mem_cons_self w l)
          · exact Or.inl h1
      · exact Or.inr (List.mem_cons_of_mem w h1)
    · intro b hb
      subst hb
      by_cases hbw : b.uploadedDate < w.uploadedDate
      · have hw := h2 w (by simp [pickLater, hbw])
        exact le_trans (le_of_lt hbw) hw
      · exact h2 b (by simp [pickLater, hbw])
    · intro v hv
      rcases List.mem_cons.mp hv with rfl | hv
      · cases acc with
        | none => exact h2 v (by simp [pickLater])
        | some b =>
          by_cases hbw : b.uploadedDate < v.uploadedDate
          · exact h2 v (by simp [pickLater, hbw])
          · exact le_trans (not_lt.mp hbw) (h2 b (by simp [pickLater, hbw]))
      · exact h3 v hv

theorem latestUpload_spec (db : DB) (u : Upload) (h : latestUpload db = some u) :
    u ∈ db.uploads ∧ u.isSuccessful = true ∧
      ∀ v ∈ db.uploads, v.isSuccessful = true →
        v.uploadedDate ≤ u.uploadedDate := by
  unfold latestUpload at h
  obtain ⟨h1, _, h3⟩ := foldl_pickLater_spec _ none u h
  rcases h1 with h1 | h1
  · exact absurd h1 (by simp)
  · have hm := List.mem_filter.mp h1
    exact ⟨hm.1, hm.2, fun v hv hvs => h3 v (List.mem_filter.mpr ⟨hv, hvs⟩)⟩

/-- CLAIM C8 (confirmed): `get_latest_upload_id` returns the id of a
successful upload with maximal `uploaded_date`; every fact-table query of
the report endpoints (all of which have the shape
`WHERE <dims> AND upload_id = get_latest_upload_id()`) reads only rows of
that single upload, so no response mixes rows of two uploads and rows of a
failed upload are never surfaced; with no successful upload the endpoints
read nothing (they 404 first). -/
theorem C8_latest_upload_scoping (db : DB) :
    (∀ uid, get_latest_upload_id db = some uid →
      ∃ u ∈ db.uploads, u.id = uid ∧ u.isSuccessful = true ∧
        ∀ v ∈ db.uploads, v.isSuccessful = true →
          v.uploadedDate ≤ u.uploadedDate) ∧
    (∀ uid (dim : FactRow → Bool), get_latest_upload_id db = some uid →
      (∀ r ∈ reportSalesRows db dim, r.uploadId = uid) ∧
      (∀ r ∈ reportBudgetRows db dim, r.uploadId = uid) ∧
      (∀ r ∈ reportProductionRows db dim, r.uploadId = uid)) ∧
    (∀ uid (dim : WdRow → Bool), get_latest_upload_id db = some uid →
      ∀ r ∈ reportWdRows db dim, r.uploadId = uid) ∧
    (∀ uid (dim : FprRow → Bool), get_latest_upload_id db = some uid →
      ∀ r ∈ reportFprRows db dim, r.uploadId = uid) ∧
    (∀ uid (dim : CostRow → Bool), get_latest_upload_id db = some uid →
      ∀ r ∈ reportCostRows db dim, r.uploadId = uid) ∧
    (∀ (dimS dimP : FactRow → Bool),
      ∀ r ∈ reportSalesRows db dimS, ∀ q ∈ reportProductionRows db dimP,
        r.uploadId = q.uploadId) ∧
    (get_latest_upload_id db = none →
      ∀ (dimF : FactRow → Bool) (dimW : WdRow → Bool) (dimFp : FprRow → Bool)
        (dimC : CostRow → Bool),
        reportSalesRows db dimF = [] ∧ reportBudgetRows db dimF = [] ∧
        reportProductionRows db dimF = [] ∧ reportWdRows db dimW = [] ∧
        reportFprRows db dimFp = [] ∧ reportCostRows db dimC = []) := by
  refine ⟨?_, ?_, ?_, ?_, ?_, ?_, ?_⟩
  · intro uid h
    unfold get_latest_upload_id at h
    cases hl : latestUpload db with
    | none => rw [hl] at h; cases h
    | some u =>
      rw [hl] at h
      injection h with h
      obtain ⟨hm, hs, hmax⟩ := latestUpload_spec db u hl
      exact ⟨u, hm, h, hs, hmax⟩
  · intro uid dim h
    refine ⟨?_, ?_, ?_⟩ <;>
      · intro r hr
        simp only [reportSalesRows, reportBudgetRows, reportProductionRows, h] at hr
        have hc := (List.mem_filter.mp hr).2
        rw [Bool.and_eq_true] at hc
        exact of_decide_eq_true hc.2
  · intro uid dim h r hr
    simp only [reportWdRows, h] at hr
    have hc := (List.mem_filter.mp hr).2
    rw [Bool.and_eq_true] at hc
    exact of_decide_eq_true hc.2
  · intro uid dim h r hr
    simp only [reportFprRows, h] at hr
    have hc := (List.mem_filter.mp hr).2
    rw [Bool.and_eq_true] at hc
    exact of_decide_eq_true hc.2
  · intro uid dim h r hr
    simp only [reportCostRows, h] at hr
    have hc := (List.mem_filter.mp hr).2
    rw [Bool.and_eq_true] at hc
    exact of_decide_eq_true hc.2
  · intro dimS dimP r hr q hq
    cases hl : get_latest_upload_id db with
    | none => simp [reportSalesRows, hl] at hr
    | some uid =>
      simp only [reportSalesRows, reportProductionRows, hl] at hr hq
      have hcr := (List.mem_filter.mp hr).2
      have hcq := (List.mem_filter.mp hq).2
      rw [Bool.and_eq_true] at hcr hcq
      rw [of_decide_eq_true hcr.2, of_decide_eq_true hcq.2]
  · intro h dimF dimW dimFp dimC
    refine ⟨?_, ?_, ?_, ?_, ?_, ?_⟩ <;>
      simp [reportSalesRows, reportBudgetRows, reportProductionRows,
        reportWdRows, reportFprRows, reportCostRows, h]

/-- Witness for C8: in `dbTwo` (upload 1 failed, upload 2 successful) the
latest upload is the successful upload 2 and every sales row any report
reads belongs to it. -/
theorem C8_latest_upload_witness :
    (∃ u ∈ dbTwo.uploads, u.id = 2 ∧ u.isSuccessful = true ∧
      ∀ v ∈ dbTwo.uploads, v.isSuccessful = true →
        v.uploadedDate ≤ u.uploadedDate) ∧
    (∀ r ∈ reportSalesRows dbTwo (fun _ => true), r.uploadId = 2) :=
  ⟨(C8_latest_upload_scoping dbTwo).1 2 rfl,
   ((C8_latest_upload_scoping dbTwo).2.1 2 (fun _ => true) rfl).1⟩

/-- CLAIM C9 (confirmed): deleting a category that still has at least one
attached product answers HTTP 409 and leaves the store unchanged. -/
theorem C9_delete_category_conflict (db : DB) (cid : Nat)
    (hcat : ∃ c ∈ db.product_categories, c.id = cid)
    (hprod : ∃ p ∈ db.products, p.categoryId = cid) :
    delete_product_category db cid = (409, db) := by
  unfold delete_product_category
  cases hfind : db.product_categories.find? (fun c => decide (c.id = cid)) with
  | none =>
    exfalso
    obtain ⟨c, hc, hcid⟩ := hcat
    have := List.find?_eq_none.mp hfind c hc
    simp [hcid] at this
  | some c =>
    obtain ⟨p, hp, hpc⟩ := hprod
    have hmem : p ∈ db.products.filter (fun p => decide (p.categoryId = cid)) :=
      List.mem_filter.mpr ⟨hp, by simp [hpc]⟩
    have hpos : 0 < (db.products.filter (fun p => decide (p.categoryId = cid))).length :=
      List.length_pos.mpr (List.ne_nil_of_mem hmem)
    simp only [hpos, if_pos]

/-- Witness for C9: category 1 of `dbCat` has the attached product `Cola`;
deleting it answers 409 and the store is unchanged. -/
theorem C9_delete_category_witness :
    delete_product_category dbCat 1 = (409, dbCat) :=
  C9_delete_category_conflict dbCat 1
    ⟨⟨1, "Beverages"⟩, by simp [dbCat], rfl⟩
    ⟨⟨5, 1, "Cola"⟩, by simp [dbCat], rfl⟩

/-- CLAIM C10 (as stated, refuted): a workbook can contain a `Dashboard-1`
sheet whose rows 110-120 hold no parseable month cell; then
`process_cost_data` builds an empty batch, `batch_insert` never prepares the
`INSERT INTO cost_data` statement, no missing-table error is raised and the
upload is marked successful — despite `init_database` creating no
`cost_data` table. -/
theorem C10_empty_dashboard_counterexample :
    "cost_data" ∉ initTables ∧
    stDashEmpty.costData = some (costStage initTables [⟨none, none, none⟩]) ∧
    (process_excel_file stDashEmpty).isSuccessful = true :=
  ⟨by decide, rfl, rfl⟩

/-- CLAIM C10 (amended, proved): `init_database` creates no `cost_data`
table, and on that schema every ingestion of a workbook whose `Dashboard-1`
rows yield at least one parsed cost row fails: the cost stage raises the
missing-table error, the upload is never marked successful, and — when no
earlier directly-run stage failed first — the recorded error message is
`no such table: cost_data`. -/
theorem C10_cost_table_missing_amended (st : StageOutcomes) (rows : List CostCell)
    (hcd : st.costData = some (costStage initTables rows))
    (hbatch : 0 < costBatchLen rows) :
    "cost_data" ∉ initTables ∧
    (process_excel_file st).isSuccessful = false ∧
    ((∃ u, st.readSheets = Except.ok u) →
      (∀ e, st.workingDays ≠ some (Except.error e)) →
      (∀ e, st.salesProjection ≠ some (Except.error e)) →
      (process_excel_file st).errorMessage = some "no such table: cost_data") := by
  have hmiss : "cost_data" ∉ initTables := by decide
  have hcs : costStage initTables rows = Except.error "no such table: cost_data" := by
    unfold costStage
    rw [if_pos ⟨hbatch, hmiss⟩]
  have hcd2 : st.costData = some (Except.error "no such table: cost_data") := by
    rw [hcd, hcs]
  refine ⟨hmiss, ?_, ?_⟩
  · cases hb : (process_excel_file st).isSuccessful with
    | false => rfl
    | true =>
      have := (process_excel_file_success_iff st).mp hb
      exact absurd hcd2 (this.2.2.2 "no such table: cost_data")
  · intro h1 h2 h3
    exact (process_excel_file_cost_error st _ h1 h2 h3 hcd2).1

/-- Witness for C10: a workbook whose `Dashboard-1` holds one January-2025
cost row is recorded failed with the missing-table error. -/
theorem C10_cost_table_missing_witness :
    (process_excel_file stDashJan).isSuccessful = false ∧
    (process_excel_file stDashJan).errorMessage =
      some "no such table: cost_data" := by
  have h := C10_cost_table_missing_amended stDashJan
      [⟨some (mkMonthToken "Jan" 25), some 5, some 3⟩] rfl (by decide)
  exact ⟨h.2.1, h.2.2 ⟨(), rfl⟩ (fun e hh => Option.noConfusion hh)
    (fun e hh => Option.noConfusion hh)⟩

end AccountingReports
